/-
  Formal model of the question-paper-app repository (src/utils.py, src/app.py,
  src/models.py, src/prompts.py), as a shallow embedding in Lean 4.

  Modelling conventions:
  * Python byte buffers are abstracted by `FileBytes`, which records the outcome
    of the two external decoders applied to the buffer: PyMuPDF's PDF opener
    (`asPdf`) and PIL's image opener (`asImage`).  A buffer that is decodable as
    a PDF carries its ordered list of pages (each a width/height in points); a
    buffer that is not decodable carries the exception's message (`str(e)`).
  * Streamlit's `st.error` calls are modelled by collecting the error strings in
    the second component of each function's result; `st.spinner` / `st.success`
    are pure UI and are not modelled.  A Python function that catches every
    exception and returns normally is modelled by a total Lean function.
  * Machine floats of the source (`dpi / 72`, `marks`) are modelled by `ℚ`.
-/
import Mathlib

namespace QPApp

/-! ## PyMuPDF model (external library used by src/utils.py) -/

/-- A PDF page, reduced to its media-box size in points (72 points = 1 inch). -/
structure Page where
  widthPts : ℚ
  heightPts : ℚ

namespace pymupdf

/-- Model of `pymupdf.Matrix(a, d)`: the two-argument constructor produces the
    diagonal scaling matrix `[a, 0, 0, d, 0, 0]`; `src/utils.py` only ever
    builds `Matrix(zoom, zoom)`. -/
structure Matrix where
  a : ℚ
  d : ℚ

/-- A rendered pixmap, reduced to its integer pixel dimensions. -/
structure Pixmap where
  width : ℤ
  height : ℤ

end pymupdf

/-- Modelled from MuPDF's documented rectangle rounding (`fz_round_rect`):
    a rendered extent `q` in scaled units becomes `⌈q - 1/1000⌉` pixels — round
    up, but slivers smaller than the 0.001 tolerance do not add a pixel. -/
def roundDim (q : ℚ) : ℤ := ⌈q - 1 / 1000⌉

/-- Model of `page.get_pixmap(matrix=mat)`: the page rectangle
    `(0, 0, widthPts, heightPts)` is transformed by the diagonal matrix and
    rounded to integer pixel dimensions. -/
def Page.get_pixmap (page : Page) (mat : pymupdf.Matrix) : pymupdf.Pixmap :=
  ⟨roundDim (page.widthPts * mat.a), roundDim (page.heightPts * mat.d)⟩

/-! ## PIL model (external library used by src/utils.py and src/app.py) -/

namespace PIL

/-- A PIL image, reduced to the attributes the repository inspects: its
    color/channel mode string and its pixel dimensions. -/
structure Image where
  mode : String
  width : ℤ
  height : ℤ
deriving DecidableEq

/-- Model of `Image.frombytes(mode, [w, h], samples)`: builds an image with the
    given mode and size (the sample buffer itself is abstracted away). -/
def Image.frombytes (mode : String) (w h : ℤ) : Image := ⟨mode, w, h⟩

/-- Model of `image.convert(mode)`: returns the image re-encoded in the
    requested color mode. -/
def Image.convert (image : Image) (mode : String) : Image := { image with mode := mode }

end PIL

/-! ## Byte buffers and uploaded files -/

/-- An uploaded byte buffer, abstracted by the outcomes of the two decoders the
    repository applies to it: `pymupdf.open(stream=..., filetype="pdf")` and
    `PIL.Image.open(io.BytesIO(...))`.  `.error msg` means the decoder raises
    an exception whose `str` is `msg`. -/
structure FileBytes where
  asPdf : Except String (List Page)
  asImage : Except String PIL.Image

/-- Model of Streamlit's `UploadedFile`: `read` is the byte content
    (`uploaded_file.read()`), `type` the declared MIME type
    (`uploaded_file.type`). -/
structure UploadedFile where
  read : FileBytes
  type : String

/-! ## src/utils.py -/

/-- Embedding of `convert_pdf_to_images` (src/utils.py lines 7-33).  The result
    pairs the returned image list with the list of `st.error` messages emitted.
    The `try`/`except` around the body is modelled by the `.error` branch:
    a failing decode yields `[]` plus the error report. -/
def convert_pdf_to_images (pdf_bytes : FileBytes) (dpi : ℚ := 300) :
    List PIL.Image × List String :=
  match pdf_bytes.asPdf with
  | .ok doc =>
      let zoom := dpi / 72
      let mat : pymupdf.Matrix := ⟨zoom, zoom⟩
      let images := doc.map (fun page =>
        let pix := page.get_pixmap mat
        PIL.Image.frombytes "RGB" pix.width pix.height)
      (images, [])
  | .error e => ([], ["Error converting PDF to images: " ++ e])

/-- Embedding of `process_uploaded_file` (src/utils.py lines 35-77).  Result is
    the returned image list paired with the emitted `st.error` messages.  The
    outer `try`/`except` is modelled in the image branch (where `Image.open`
    may raise); in the PDF branch `convert_pdf_to_images` already catches
    everything and returns normally. -/
def process_uploaded_file (uploaded_file : UploadedFile) : List PIL.Image × List String :=
  let file_bytes := uploaded_file.read
  let file_type := uploaded_file.type
  if file_type = "application/pdf" then
    convert_pdf_to_images file_bytes 200
  else if file_type = "image/png" ∨ file_type = "image/jpeg" ∨ file_type = "image/jpg" then
    match file_bytes.asImage with
    | .ok image =>
        let image := if image.mode ≠ "RGB" then image.convert "RGB" else image
        ([image], [])
    | .error e => ([], ["Error processing file: " ++ e])
  else
    ([], ["Unsupported file type: " ++ file_type])

/-- Model of Python's `str.count` for a single character (src/utils.py line 90):
    the number of occurrences of `c` in the text. -/
def countChar (c : Char) : List Char → Nat
  | [] => 0
  | x :: rest => (if x = c then 1 else 0) + countChar c rest

/-- Model of Python's `str.count("$$")`: the number of non-overlapping
    occurrences of `"$$"`, scanning greedily from the left. -/
def countDoubleDollar : List Char → Nat
  | '$' :: '$' :: rest => countDoubleDollar rest + 1
  | _ :: rest => countDoubleDollar rest
  | [] => 0

/-- Embedding of `validate_latex` (src/utils.py lines 79-101).  Counts are taken
    over the text's characters; Python's int subtraction is modelled in `ℤ`. -/
def validate_latex (text : String) : Bool :=
  let single_dollar_count : ℤ :=
    (countChar '$' text.data : ℤ) - (countDoubleDollar text.data : ℤ) * 2
  let double_dollar_count : ℤ := (countDoubleDollar text.data : ℤ)
  if single_dollar_count % 2 ≠ 0 then false
  else if double_dollar_count % 2 ≠ 0 then false
  else true

/-! ## JSON values and `json.loads` (Python standard library used by src/app.py)

The response text handed to `display_question_paper` is a Python string; the
source parses it with `json.loads`.  We model JSON documents by the tree type
`Json` (numbers kept exact in `ℚ`) and `json.loads` by a total recursive-descent
parser over the string's characters, returning `none` where the Python call
raises `json.JSONDecodeError`. -/

/-- A JSON document tree.  Object members keep their textual order.  The last
    three constructors model the non-finite floats (`float("nan")`,
    `float("inf")`, `float("-inf")`) that `json.loads` produces for the
    constants `NaN`, `Infinity` and `-Infinity`, which it accepts by default. -/
inductive Json where
  | null : Json
  | bool : Bool → Json
  | num : ℚ → Json
  | str : String → Json
  | arr : List Json → Json
  | obj : List (String × Json) → Json
  | nan : Json
  | infinity : Json
  | negInfinity : Json

namespace json

/-- JSON whitespace (RFC 8259 / `json.loads`). -/
def isWs (c : Char) : Bool := c = ' ' ∨ c = '\t' ∨ c = '\n' ∨ c = '\r'

/-- Drop leading JSON whitespace. -/
def skipWs : List Char → List Char
  | c :: rest => if isWs c then skipWs rest else c :: rest
  | [] => []

/-- Decimal digit test. -/
def isDigit (c : Char) : Bool := '0' ≤ c ∧ c ≤ '9'

/-- Split the input into its longest leading digit run and the remainder. -/
def digitSpan (cs : List Char) : List Char × List Char :=
  (cs.takeWhile isDigit, cs.dropWhile isDigit)

/-- Numeric value of a digit run, with an accumulator. -/
def digitsVal : List Char → Nat → Nat
  | [], acc => acc
  | d :: ds, acc => digitsVal ds (10 * acc + (d.toNat - 48))

/-- Value of a one-character escape after a backslash (`\x22`, `\\`, `/`, `b`,
    `f`, `n`, `r`, `t`); `\uXXXX` escapes are handled separately. -/
def unescape (c : Char) : Option Char :=
  if c = '\x22' then some '\x22'
  else if c = '\\' then some '\\'
  else if c = '/' then some '/'
  else if c = 'b' then some (Char.ofNat 8)
  else if c = 'f' then some (Char.ofNat 12)
  else if c = 'n' then some '\n'
  else if c = 'r' then some '\r'
  else if c = 't' then some '\t'
  else none

/-- Value of one hexadecimal digit. -/
def hexVal (c : Char) : Option Nat :=
  if isDigit c then some (c.toNat - 48)
  else if 'a' ≤ c ∧ c ≤ 'f' then some (c.toNat - 87)
  else if 'A' ≤ c ∧ c ≤ 'F' then some (c.toNat - 55)
  else none

/-- Decode the characters of a JSON string after the opening quote, up to and
    past the closing quote; yields the decoded characters and the remainder. -/
def parseStrChars : List Char → Option (List Char × List Char)
  | [] => none
  | '\x22' :: rest => some ([], rest)
  | '\\' :: 'u' :: h1 :: h2 :: h3 :: h4 :: rest =>
      match hexVal h1, hexVal h2, hexVal h3, hexVal h4 with
      | some v1, some v2, some v3, some v4 =>
          (parseStrChars rest).map
            (fun p => (Char.ofNat (v1 * 4096 + v2 * 256 + v3 * 16 + v4) :: p.1, p.2))
      | _, _, _, _ => none
  | '\\' :: e :: rest =>
      match unescape e with
      | some ch => (parseStrChars rest).map (fun p => (ch :: p.1, p.2))
      | none => none
  | c :: rest =>
      if c.toNat < 32 then none
      else (parseStrChars rest).map (fun p => (c :: p.1, p.2))

/-- Scale a parsed magnitude by an exponent written after `e`/`E`. -/
def applyExp (base : ℚ) (tail : List Char) : Option (ℚ × List Char) :=
  let (sgn, t1) : ℤ × List Char :=
    match tail with
    | '+' :: t => (1, t)
    | '-' :: t => (-1, t)
    | _ => (1, tail)
  match digitSpan t1 with
  | ([], _) => none
  | (eds, t2) => some (base * (10 : ℚ) ^ (sgn * (digitsVal eds 0 : ℤ)), t2)

/-- Attach an optional exponent part to a parsed magnitude. -/
def withExp (base : ℚ) : List Char → Option (ℚ × List Char)
  | 'e' :: t => applyExp base t
  | 'E' :: t => applyExp base t
  | other => some (base, other)

/-- Parse an unsigned JSON number: an integer part (a single `0` or a run not
    starting with `0`, per the grammar's `0|[1-9][0-9]*`), an optional
    fraction, an optional exponent. -/
def parseMagnitude (cs : List Char) : Option (ℚ × List Char) :=
  match digitSpan cs with
  | ([], _) => none
  | (ip, r1) =>
      if ip.head? = some '0' ∧ 1 < ip.length then none
      else
        match r1 with
        | '.' :: r2 =>
            match digitSpan r2 with
            | ([], _) => none
            | (fp, r3) =>
                withExp ((digitsVal ip 0 : ℚ) + (digitsVal fp 0 : ℚ) / (10 : ℚ) ^ fp.length) r3
        | _ => withExp ((digitsVal ip 0 : ℚ)) r1

/-- Parse a JSON number into an exact rational: an optional leading minus sign,
    then a magnitude. -/
def parseNum (cs : List Char) : Option (ℚ × List Char) :=
  match cs with
  | '-' :: t => (parseMagnitude t).map (fun p => (-p.1, p.2))
  | _ => parseMagnitude cs

/-- Check that the input starts with the given literal characters. -/
def parseLit (lit : List Char) (cs : List Char) : Option (List Char) :=
  match lit, cs with
  | [], rest => some rest
  | l :: ls, c :: rest => if c = l then parseLit ls rest else none
  | _ :: _, [] => none

mutual

/-- Parse one JSON value.  `fuel` bounds the nesting depth; it is structural so
    the parser is total, and callers supply more fuel than the input's length. -/
def parseValue : Nat → List Char → Option (Json × List Char)
  | 0, _ => none
  | _ + 1, [] => none
  | fuel + 1, c :: rest =>
      if c = 'n' then (parseLit ['u', 'l', 'l'] rest).map (fun r => (Json.null, r))
      else if c = 't' then (parseLit ['r', 'u', 'e'] rest).map (fun r => (Json.bool true, r))
      else if c = 'f' then (parseLit ['a', 'l', 's', 'e'] rest).map (fun r => (Json.bool false, r))
      else if c = '\x22' then
        (parseStrChars rest).map (fun p => (Json.str (String.mk p.1), p.2))
      else if c = '[' then
        match skipWs rest with
        | ']' :: r => some (Json.arr [], r)
        | r => (parseArrItems fuel r).map (fun p => (Json.arr p.1, p.2))
      else if c = '\x7b' then
        match skipWs rest with
        | '\x7d' :: r => some (Json.obj [], r)
        | r => (parseObjItems fuel r).map (fun p => (Json.obj p.1, p.2))
      else if c = 'N' then (parseLit ['a', 'N'] rest).map (fun r => (Json.nan, r))
      else if c = 'I' then
        (parseLit ['n', 'f', 'i', 'n', 'i', 't', 'y'] rest).map (fun r => (Json.infinity, r))
      else if c = '-' then
        match parseNum (c :: rest) with
        | some p => some (Json.num p.1, p.2)
        | none =>
            (parseLit ['I', 'n', 'f', 'i', 'n', 'i', 't', 'y'] rest).map
              (fun r => (Json.negInfinity, r))
      else if isDigit c then (parseNum (c :: rest)).map (fun p => (Json.num p.1, p.2))
      else none

/-- Parse the comma-separated items of a non-empty array, up to and including
    the closing bracket. -/
def parseArrItems : Nat → List Char → Option (List Json × List Char)
  | 0, _ => none
  | fuel + 1, cs => do
      let (v, r1) ← parseValue fuel (skipWs cs)
      match skipWs r1 with
      | ',' :: r2 => (parseArrItems fuel (skipWs r2)).map (fun p => (v :: p.1, p.2))
      | ']' :: r2 => some ([v], r2)
      | _ => none

/-- Parse the comma-separated members of a non-empty object, up to and
    including the closing brace. -/
def parseObjItems : Nat → List Char → Option (List (String × Json) × List Char)
  | 0, _ => none
  | fuel + 1, cs => do
      let (k, r1) ← match skipWs cs with
        | '\x22' :: r => (parseStrChars r).map (fun p => (String.mk p.1, p.2))
        | _ => none
      let r2 ← match skipWs r1 with
        | ':' :: r => some r
        | _ => none
      let (v, r3) ← parseValue fuel (skipWs r2)
      match skipWs r3 with
      | ',' :: r4 => (parseObjItems fuel (skipWs r4)).map (fun p => ((k, v) :: p.1, p.2))
      | '\x7d' :: r4 => some ((k, v) :: [], r4)
      | _ => none

end

/-- Model of `json.loads` (src/app.py line 110): parse the whole string as one
    JSON document; `none` models a raised `json.JSONDecodeError`. -/
def loads (s : String) : Option Json :=
  match parseValue (s.length + 1) (skipWs s.data) with
  | some (v, rest) => if skipWs rest = [] then some v else none
  | none => none

end json

/-! ## src/models.py — the pydantic schema

`QuestionDetailBase` / `QuestionPaperBase` are pydantic models.  We embed them
as Lean structures (the `Literal["MCQ", "Subjective"]` field as a two-value
inductive, `Optional[...]` fields as `Option`, `float` as `ℚ`) and model
pydantic's JSON serialization and validation of this schema over `Json` trees:
serialization emits every field, with `None` as JSON `null`; validation
requires every field to be present (the `Optional` fields carry no default in
the source) and checks each value's type and, for `question_type`, membership
in the literal enum. -/

/-- The `Literal["MCQ", "Subjective"]` type of `question_type`. -/
inductive QuestionType where
  | MCQ : QuestionType
  | Subjective : QuestionType
deriving DecidableEq

/-- Embedding of `QuestionDetailBase` (src/models.py lines 4-39). -/
structure QuestionDetailBase where
  question_number : String
  question_type : QuestionType
  question_text : String
  marks : ℚ
  is_choice_question : Option Bool
  choice_instruction : Option String
  diagram_description : Option String
  sub_parts_mapping : Option String
deriving DecidableEq

/-- Embedding of `QuestionPaperBase` (src/models.py lines 43-53). -/
structure QuestionPaperBase where
  questions : List QuestionDetailBase
  total_max_marks : ℚ
deriving DecidableEq

/-- The JSON string pydantic emits for a `question_type` value. -/
def QuestionType.toJsonStr : QuestionType → String
  | .MCQ => "MCQ"
  | .Subjective => "Subjective"

/-- Serialization of an optional field: pydantic dumps `None` as JSON `null`. -/
def optToJson (f : α → Json) : Option α → Json
  | none => Json.null
  | some a => f a

/-- Pydantic JSON serialization of one `QuestionDetailBase`, in declaration
    order of the fields. -/
def QuestionDetailBase.toJson (q : QuestionDetailBase) : Json :=
  Json.obj
    [("question_number", Json.str q.question_number),
     ("question_type", Json.str q.question_type.toJsonStr),
     ("question_text", Json.str q.question_text),
     ("marks", Json.num q.marks),
     ("is_choice_question", optToJson Json.bool q.is_choice_question),
     ("choice_instruction", optToJson Json.str q.choice_instruction),
     ("diagram_description", optToJson Json.str q.diagram_description),
     ("sub_parts_mapping", optToJson Json.str q.sub_parts_mapping)]

/-- Pydantic JSON serialization of a whole `QuestionPaperBase`. -/
def QuestionPaperBase.toJson (p : QuestionPaperBase) : Json :=
  Json.obj
    [("questions", Json.arr (p.questions.map QuestionDetailBase.toJson)),
     ("total_max_marks", Json.num p.total_max_marks)]

/-- Look a key up among an object's members (first match, as pydantic does
    after `json` decoding merges duplicates; serialized output has no
    duplicates). -/
def lookupField : List (String × Json) → String → Option Json
  | [], _ => none
  | (k, v) :: rest, key => if k = key then some v else lookupField rest key

/-- Validation of a JSON value against `str`. -/
def Json.asStr : Json → Option String
  | .str s => some s
  | _ => none

/-- Validation of a JSON value against `float` (numeric). -/
def Json.asNum : Json → Option ℚ
  | .num q => some q
  | _ => none

/-- Validation of a JSON value against `bool`. -/
def Json.asBool : Json → Option Bool
  | .bool b => some b
  | _ => none

/-- Validation of a JSON value against `Optional[T]`: `null` is `None`, any
    other value must validate against `T`. -/
def Json.asOpt (f : Json → Option α) : Json → Option (Option α)
  | .null => some none
  | j => (f j).map some

/-- Validation of a JSON value against `Literal["MCQ", "Subjective"]`. -/
def Json.asQuestionType : Json → Option QuestionType
  | .str "MCQ" => some QuestionType.MCQ
  | .str "Subjective" => some QuestionType.Subjective
  | _ => none

/-- Pydantic validation of one `QuestionDetailBase` from a JSON value: the
    value must be an object, every declared field must be present, and each
    field's value must have the declared type. -/
def validate_question_detail (j : Json) : Option QuestionDetailBase :=
  match j with
  | .obj fs => do
      let question_number ← lookupField fs "question_number" >>= Json.asStr
      let question_type ← lookupField fs "question_type" >>= Json.asQuestionType
      let question_text ← lookupField fs "question_text" >>= Json.asStr
      let marks ← lookupField fs "marks" >>= Json.asNum
      let is_choice_question ← lookupField fs "is_choice_question" >>= Json.asOpt Json.asBool
      let choice_instruction ← lookupField fs "choice_instruction" >>= Json.asOpt Json.asStr
      let diagram_description ← lookupField fs "diagram_description" >>= Json.asOpt Json.asStr
      let sub_parts_mapping ← lookupField fs "sub_parts_mapping" >>= Json.asOpt Json.asStr
      some ⟨question_number, question_type, question_text, marks,
            is_choice_question, choice_instruction, diagram_description, sub_parts_mapping⟩
  | _ => none

/-- Pydantic validation of a JSON array's items against
    `List[QuestionDetailBase]`, element by element. -/
def validate_question_list : List Json → Option (List QuestionDetailBase)
  | [] => some []
  | j :: rest =>
      match validate_question_detail j, validate_question_list rest with
      | some q, some qs => some (q :: qs)
      | _, _ => none

/-- Pydantic validation of a `QuestionPaperBase` from a JSON value. -/
def validate_question_paper (j : Json) : Option QuestionPaperBase :=
  match j with
  | .obj fs => do
      let qjs ← match lookupField fs "questions" with
        | some (Json.arr xs) => some xs
        | _ => none
      let questions ← validate_question_list qjs
      let total_max_marks ← lookupField fs "total_max_marks" >>= Json.asNum
      some ⟨questions, total_max_marks⟩
  | _ => none

/-! ## src/app.py — response display -/

/-- Outcome of `display_question_paper`: either the parsed JSON document is
    rendered, or (on `json.JSONDecodeError`) an error is reported and the raw
    response text is echoed verbatim via `st.code(question_paper_data)`.  The
    `parseError` payload is that raw text. -/
inductive DisplayOutcome where
  | rendered : Json → DisplayOutcome
  | parseError : String → DisplayOutcome

/-- Embedding of `display_question_paper` (src/app.py lines 106-167), reduced
    to its parse/except structure: `json.loads` on the response text, rendering
    of the parsed document on success (the Streamlit rendering itself is UI and
    out of scope), and on `json.JSONDecodeError` the error report carrying the
    input string exactly. -/
def display_question_paper (question_paper_data : String) : DisplayOutcome :=
  match json.loads question_paper_data with
  | some data => DisplayOutcome.rendered data
  | none => DisplayOutcome.parseError question_paper_data

/-! ## src/prompts.py and the google.genai request model (src/app.py) -/

/-- Embedding of `get_system_prompt` (src/prompts.py lines 1-133): the fixed
    system-instruction text, as the runtime value of the source's non-raw
    triple-quoted string literal — Python's recognized escape sequences are
    processed (so the source's \\t, \\a, \\b, \\f, \\n spellings inside LaTeX
    commands become TAB, BEL, BS, FF and newline characters), while
    unrecognized escapes keep their backslash.  Brace, quote and control
    characters are written here via escape sequences. -/
def get_system_prompt : String :=
  "<role>\nYou are an expert Question Paper Analyzer specialized in extracting structured information from academic question papers. You have extensive experience in mathematics, science, and technical subjects, with deep knowledge of LaTeX notation for mathematical expressions.\n</role>\n\n<task>\nExtract ALL questions from the provided question paper image(s) and structure them according to the provided JSON schema. Your output must be valid JSON that exactly matches the schema requirements.\n</task>\n\n<critical_instructions>\n1. QUESTION GROUPING: If a question paper has questions labeled like \"10A\" and \"10B\" or \"Question 10 (a)\" and \"Question 10 (b)\", these should be treated as ONE SINGLE question entry with both parts included in the question_text and clearly mapped in sub_parts_mapping. DO NOT create separate question entries for sub-parts of the same question number.\n\n2. LATEX FORMATTING: Convert ALL mathematical expressions to KaTeX-compatible LaTeX:\n   - Use $...$ for inline math (e.g., $x^2 + y^2 = r^2$)\n   - Use $$...$$ for display/block math equations\n   - Preserve exact mathematical notation including fractions, integrals, summations, matrices, etc.\n   - Use \text\x7b...\x7d for text within math mode\n   - Common symbols: \x07lpha, \x08eta, \theta, \\pi, \\sum, \\int, \x0crac\x7b\x7d\x7b\x7d, \\sqrt\x7b\x7d, \\leq, \\geq, \neq, \times, \\div\n\n3. QUESTION TEXT COMPLETENESS: Include the ENTIRE question text exactly as it appears, including:\n   - All sub-parts (a, b, c, i, ii, iii, A, B, etc.)\n   - Any preamble or context\n   - All options for MCQ questions\n   - Any notes or special instructions specific to that question\n</critical_instructions>\n\n<extraction_guidelines>\n<question_identification>\n- Carefully identify each unique question number\n- Look for patterns like: \"1.\", \"Q1\", \"Question 1\", \"1a\", \"10A\", etc.\n- Group all parts that belong to the same question number together\n- Pay attention to indentation and formatting to identify sub-parts\n</question_identification>\n\n<question_type_classification>\n- MCQ: Question has options labeled (A), (B), (C), (D) or similar\n- Subjective: Question requires written explanation, derivation, proof, or numerical answer\n- Default to \"Subjective\" if unclear\n</question_type_classification>\n\n<marks_extraction>\n- Look for marks indicated as: [5 marks], (10), [10M], \"10 marks\", etc.\n- For questions with sub-parts, SUM all part marks to get total question marks\n- If marks are not explicitly stated, use reasonable estimation based on question complexity\n- For choice questions, calculate total_max_marks based on maximum possible score\n</marks_extraction>\n\n<choice_questions>\n- Identify phrases like: \"Answer any two\", \"Attempt all\", \"Choose one from\", etc.\n- Set is_choice_question to true\n- Capture exact instruction in choice_instruction field\n- Examples: \"Answer any 2 out of 3\", \"Attempt all questions\", \"Solve any one\"\n</choice_questions>\n\n<diagram_handling>\n- If question references a diagram, figure, graph, circuit, or image, provide detailed description\n- Include: what is shown, labels, axes, key features, measurements\n- Example: \"Circuit diagram showing resistors R1=10Ω, R2=20Ω in series with 12V battery\"\n- If no diagram, leave empty string\n</diagram_handling>\n\n<sub_parts_structure>\n- For questions with multiple parts under same number, document the structure\n- Examples:\n  * \"Part A (5 marks): Definition, Part B (5 marks): Application\"\n  * \"(i) 2 marks, (ii) 3 marks, (iii) 5 marks\"\n  * \"Section A: Theory (6 marks), Section B: Numerical (4 marks)\"\n- This helps preserve the original question paper structure\n</sub_parts_structure>\n</extraction_guidelines>\n\n<latex_examples>\nCORRECT LaTeX formatting examples:\n\n1. Quadratic equation: $ax^2 + bx + c = 0$\n2. Integral: $\\int_a^b f(x) \\, dx$\n3. Summation: $\\sum_\x7bi=1\x7d^\x7bn\x7d i = \x0crac\x7bn(n+1)\x7d\x7b2\x7d$\n4. Fraction: $\x0crac\x7bdy\x7d\x7bdx\x7d = 2x + 3$\n5. Matrix: $\x08egin\x7bbmatrix\x7d a & b \\ c & d \\end\x7bbmatrix\x7d$\n6. Greek letters: $\x07lpha, \x08eta, \\gamma, \theta, \\lambda, \\mu, \\sigma$\n7. Limit: $\\lim_\x7bx \to \\infty\x7d \x0crac\x7b1\x7d\x7bx\x7d = 0$\n8. Square root: $\\sqrt\x7bx^2 + y^2\x7d$\n9. Display equation:\n   $$E = mc^2$$\n10. Piecewise function:\n    $$f(x) = \x08egin\x7bcases\x7d x^2 & \text\x7bif \x7d x \\geq 0 \\ -x^2 & \text\x7bif \x7d x < 0 \\end\x7bcases\x7d$$\n</latex_examples>\n\n<quality_checks>\nBefore finalizing output, verify:\n✓ All questions from all pages are included\n✓ Question numbers are correctly identified and sequential\n✓ Sub-parts of same question are grouped together (NOT separate entries)\n✓ All mathematical expressions are in valid LaTeX\n✓ Marks are correctly calculated (sum for multi-part questions)\n✓ total_max_marks accurately reflects maximum achievable score\n✓ Diagram descriptions are detailed where applicable\n✓ Choice instructions are captured accurately\n✓ Output is valid JSON matching the exact schema\n</quality_checks>\n\n<output_format>\nReturn ONLY valid JSON matching the QuestionPaperBase schema. No preamble, no explanation, no markdown formatting - just pure JSON.\n</output_format>\n\n<examples>\nExample 1 - Single question with sub-parts:\nQuestion in paper: \"10A) Derive the equation. (5 marks) 10B) Apply to example. (5 marks)\"\nCorrect extraction:\n\x7b\n  \"question_number\": \"10\",\n  \"question_text\": \"**Part A (5 marks):** Derive the equation of motion for simple harmonic motion starting from Newton\x27s second law.\n\n**Part B (5 marks):** Apply this equation to find the time period of a simple pendulum of length $L$ in gravitational field $g$.\",\n  \"marks\": 10,\n  \"sub_parts_mapping\": \"Part A: 5 marks - Derivation, Part B: 5 marks - Application\"\n\x7d\n\nExample 2 - MCQ question:\nQuestion in paper: \"1. What is the value of $\\pi$? (A) 3.14 (B) 2.71 (C) 1.41 (D) 0.577 [2 marks]\"\nCorrect extraction:\n\x7b\n  \"question_number\": \"1\",\n  \"question_type\": \"MCQ\",\n  \"question_text\": \"What is the value of $\\pi$?\n\n(A) 3.14\n(B) 2.71\n(C) 1.41\n(D) 0.577\",\n  \"marks\": 2\n\x7d\n</examples>\n\nRemember: Accuracy and completeness are critical. Extract every detail from the question paper."

/-- Model of Python's `in` operator on strings: `pyIn needle haystack` holds
    when `needle` occurs as a contiguous substring of `haystack`. -/
def isPrefixChars : List Char → List Char → Bool
  | [], _ => true
  | _ :: _, [] => false
  | n :: ns, h :: hs => n = h && isPrefixChars ns hs

/-- Substring occurrence over character lists. -/
def containsChars (haystack needle : List Char) : Bool :=
  match haystack with
  | [] => needle.isEmpty
  | _ :: rest => isPrefixChars needle haystack || containsChars rest needle

/-- Python `needle in haystack` for strings. -/
def pyIn (needle haystack : String) : Bool := containsChars haystack.data needle.data

/-- Model of Python's `str.lower()`, character by character. -/
def pyLower (s : String) : String := String.mk (s.data.map Char.toLower)

namespace types

/-- Model of `google.genai.types.MediaResolution`. -/
inductive MediaResolution where
  | MEDIA_RESOLUTION_LOW : MediaResolution
  | MEDIA_RESOLUTION_MEDIUM : MediaResolution
  | MEDIA_RESOLUTION_HIGH : MediaResolution
deriving DecidableEq

/-- A byte buffer produced by `img.save(img_byte_arr, format=\'PNG\')` followed
    by `getvalue()`: a lossless PNG encoding of the image. -/
inductive ImageBytes where
  | pngOf : QPApp.PIL.Image → ImageBytes
deriving DecidableEq

/-- Model of `types.Part`: either `Part.from_bytes(data, mime_type)` or
    `Part.from_text(text)`. -/
inductive Part where
  | from_bytes : ImageBytes → String → Part
  | from_text : String → Part
deriving DecidableEq

/-- Model of `types.Content(role, parts)`. -/
structure Content where
  role : String
  parts : List Part
deriving DecidableEq

/-- The value passed as `response_schema`: a reference to the declared pydantic
    schema class (`QuestionPaperBase`). -/
inductive SchemaRef where
  | questionPaperBase : SchemaRef
deriving DecidableEq

/-- Model of `types.ThinkingConfig(thinking_level=...)`. -/
structure ThinkingConfig where
  thinking_level : String
deriving DecidableEq

/-- Model of `types.GenerateContentConfig`.  A keyword argument that the source
    omits at a construction site is absent from the outbound request; for
    `thinking_config` this is modelled by the field defaulting to `none`. -/
structure GenerateContentConfig where
  temperature : ℚ
  response_mime_type : String
  response_schema : SchemaRef
  system_instruction : List Part
  media_resolution : MediaResolution
  thinking_config : Option ThinkingConfig := none
deriving DecidableEq

end types

/-- One outbound `client.models.generate_content` request: the model name, the
    contents, and the generation config. -/
structure Request where
  model : String
  contents : List types.Content
  config : types.GenerateContentConfig
deriving DecidableEq

/-- Embedding of `extract_questions_from_images` (src/app.py lines 33-104),
    up to the single `generate_content` call: the request it sends.  The
    `media_resolution_map.get(..., MEDIA_RESOLUTION_MEDIUM)` dictionary lookup
    is embedded as `mrm` with `Option.getD`. -/
def extract_questions_from_images (images : List PIL.Image) (model_name : String)
    (thinking_level : String := "medium") (media_resolution : String := "medium") : Request :=
  let content_parts := images.map (fun img =>
    types.Part.from_bytes (types.ImageBytes.pngOf img) "image/png")
  let content_parts := content_parts ++
    [types.Part.from_text
      "Extract all questions from this question paper following the schema and instructions provided."]
  let contents := [types.Content.mk "user" content_parts]
  let mrm : String → Option types.MediaResolution := fun s =>
    if s = "low" then some types.MediaResolution.MEDIA_RESOLUTION_LOW
    else if s = "medium" then some types.MediaResolution.MEDIA_RESOLUTION_MEDIUM
    else if s = "high" then some types.MediaResolution.MEDIA_RESOLUTION_HIGH
    else none
  let generate_content_config : types.GenerateContentConfig :=
    if pyIn "2.5" model_name || pyIn "gemini-2.5" (pyLower model_name) then
      { temperature := 1,
        response_mime_type := "application/json",
        response_schema := types.SchemaRef.questionPaperBase,
        system_instruction := [types.Part.from_text get_system_prompt],
        media_resolution := (mrm media_resolution).getD
          types.MediaResolution.MEDIA_RESOLUTION_MEDIUM }
    else
      { temperature := 1,
        response_mime_type := "application/json",
        response_schema := types.SchemaRef.questionPaperBase,
        system_instruction := [types.Part.from_text get_system_prompt],
        thinking_config := some (types.ThinkingConfig.mk thinking_level),
        media_resolution := (mrm media_resolution).getD
          types.MediaResolution.MEDIA_RESOLUTION_MEDIUM }
  Request.mk model_name contents generate_content_config

/-- The trace of `client.models.generate_content` calls that one invocation of
    `extract_questions_from_images` issues: the source body contains exactly
    one such call (src/app.py lines 97-102), with the request built above. -/
def generate_content_calls (images : List PIL.Image) (model_name : String)
    (thinking_level : String := "medium") (media_resolution : String := "medium") :
    List Request :=
  [extract_questions_from_images images model_name thinking_level media_resolution]

/-- Embedding of the dispatch in `main` (src/app.py lines 262-274): the
    thinking level forwarded to the extraction call is the sidebar selection
    for the 3-flash variant and the placeholder default "medium" otherwise. -/
def main_thinking_level (model_name : String) (sidebar_thinking_level : String) : String :=
  if pyIn "3-flash" model_name then sidebar_thinking_level else "medium"

/-! ## Concrete sample inputs used by witnesses -/

/-- A byte buffer decodable as a one-page A4-portrait PDF (595 x 842 points). -/
def pdfSample : FileBytes :=
  ⟨Except.ok [⟨595, 842⟩], Except.error "cannot identify image file"⟩

/-- A byte buffer decodable as a two-page PDF (A4 portrait, then US Letter). -/
def pdfSample2 : FileBytes :=
  ⟨Except.ok [⟨595, 842⟩, ⟨612, 792⟩], Except.error "cannot identify image file"⟩

/-- A byte buffer that neither decoder accepts. -/
def corruptBytes : FileBytes :=
  ⟨Except.error "Failed to open stream", Except.error "cannot identify image file"⟩

/-- An upload declared as `image/jpg` whose bytes decode to a 10 x 10 RGB image. -/
def jpgUpload : UploadedFile :=
  ⟨⟨Except.error "not a pdf", Except.ok ⟨"RGB", 10, 10⟩⟩, "image/jpg"⟩

/-- An upload declared as `application/zip`. -/
def zipUpload : UploadedFile := ⟨corruptBytes, "application/zip"⟩

/-- An upload declared as `image/png` whose bytes decode to a 4 x 4 grayscale
    (mode "L") image. -/
def grayPngUpload : UploadedFile :=
  ⟨⟨Except.error "not a pdf", Except.ok ⟨"L", 4, 4⟩⟩, "image/png"⟩

/-- A sample RGB page image. -/
def sampleImage : PIL.Image := ⟨"RGB", 10, 10⟩

/-! ## Claims -/

/-- C1: for every byte buffer decodable as a PDF and every requested DPI `d`,
    each page is rendered through the diagonal matrix that scales the fixed
    72-DPI base by `d / 72` in both axes, so the page's output image has pixel
    dimensions `page_size_in_points * d / 72`, rounded by the library's
    documented rounding `roundDim`. -/
theorem C1_pdf_pixel_dimensions (b : FileBytes) (pages : List Page) (dpi : ℚ)
    (i : Nat) (pg : Page) (hb : b.asPdf = Except.ok pages) (hp : pages[i]? = some pg) :
    (convert_pdf_to_images b dpi).1[i]? =
      some (PIL.Image.frombytes "RGB"
        (roundDim (pg.widthPts * (dpi / 72))) (roundDim (pg.heightPts * (dpi / 72)))) := by
  simp [convert_pdf_to_images, hb, Page.get_pixmap, List.getElem?_map, hp]

/-- Witness for C1: the A4 sample page at 200 DPI. -/
theorem C1_pdf_pixel_dimensions_witness :
    pdfSample.asPdf = Except.ok [⟨595, 842⟩] ∧
    (convert_pdf_to_images pdfSample 200).1[0]? =
      some (PIL.Image.frombytes "RGB"
        (roundDim ((595 : ℚ) * (200 / 72))) (roundDim ((842 : ℚ) * (200 / 72)))) :=
  ⟨rfl, C1_pdf_pixel_dimensions pdfSample [⟨595, 842⟩] 200 0 ⟨595, 842⟩ rfl rfl⟩

/-- C2: a byte buffer decodable as a PDF with N pages yields exactly N images,
    one RGB image per page, in page order; the caller `process_uploaded_file`
    invokes the conversion with DPI 200, while the function's own default is
    300. -/
theorem C2_pdf_page_images (b : FileBytes) (pages : List Page) (dpi : ℚ)
    (hb : b.asPdf = Except.ok pages) :
    ((convert_pdf_to_images b dpi).1 =
        pages.map (fun pg => PIL.Image.frombytes "RGB"
          (roundDim (pg.widthPts * (dpi / 72))) (roundDim (pg.heightPts * (dpi / 72)))) ∧
      (convert_pdf_to_images b dpi).1.length = pages.length ∧
      ∀ img ∈ (convert_pdf_to_images b dpi).1, img.mode = "RGB") ∧
    (∀ u : UploadedFile, u.type = "application/pdf" →
      process_uploaded_file u = convert_pdf_to_images u.read 200) ∧
    convert_pdf_to_images b = convert_pdf_to_images b 300 := by
  refine ⟨⟨?_, ?_, ?_⟩, ?_, rfl⟩
  · simp [convert_pdf_to_images, hb, Page.get_pixmap]
  · simp [convert_pdf_to_images, hb]
  · intro img himg
    simp [convert_pdf_to_images, hb] at himg
    obtain ⟨pg, _, hpg⟩ := himg
    simp [← hpg, Page.get_pixmap, PIL.Image.frombytes]
  · intro u hu
    simp [process_uploaded_file, hu]

/-- Witness for C2: the two-page sample yields exactly two images. -/
theorem C2_pdf_page_images_witness :
    pdfSample2.asPdf = Except.ok [⟨595, 842⟩, ⟨612, 792⟩] ∧
    (convert_pdf_to_images pdfSample2 200).1.length = 2 :=
  ⟨rfl, (C2_pdf_page_images pdfSample2 [⟨595, 842⟩, ⟨612, 792⟩] 200 rfl).1.2.1⟩

/-- C3 counterexample: `"image/jpg"` is outside {application/pdf, image/png,
    image/jpeg}, yet `process_uploaded_file` accepts it and produces an image
    sequence instead of failing with an unsupported-format report. -/
theorem C3_counterexample_jpg_mime :
    ("image/jpg" ≠ "application/pdf" ∧ "image/jpg" ≠ "image/png" ∧
      "image/jpg" ≠ "image/jpeg") ∧
    process_uploaded_file jpgUpload = ([⟨"RGB", 10, 10⟩], []) := by
  exact ⟨by decide, by decide⟩

/-- C3 (amended): for every input whose declared MIME type is outside
    {application/pdf, image/png, image/jpeg, image/jpg}, processing fails with
    the unsupported-format report carrying the offending MIME type string
    exactly, returns no images, and returns normally (no abort). -/
theorem C3_unsupported_mime_rejected (u : UploadedFile)
    (h1 : u.type ≠ "application/pdf") (h2 : u.type ≠ "image/png")
    (h3 : u.type ≠ "image/jpeg") (h4 : u.type ≠ "image/jpg") :
    process_uploaded_file u = ([], ["Unsupported file type: " ++ u.type]) := by
  simp [process_uploaded_file, h1, h2, h3, h4]

/-- Witness for C3's amended claim: the `application/zip` upload. -/
theorem C3_unsupported_mime_rejected_witness :
    process_uploaded_file zipUpload = ([], ["Unsupported file type: " ++ "application/zip"]) :=
  C3_unsupported_mime_rejected zipUpload (by decide) (by decide) (by decide) (by decide)

/-- C4: a byte buffer that its declared MIME type's decoder rejects makes
    rasterization report the decode error carrying the underlying cause and
    return an empty sequence; both functions return normally (in this total
    model nothing propagates past the boundary). -/
theorem C4_decode_failure_reported (b : FileBytes) (dpi : ℚ) (e e2 : String) :
    (b.asPdf = Except.error e →
      convert_pdf_to_images b dpi = ([], ["Error converting PDF to images: " ++ e]) ∧
      ∀ u : UploadedFile, u.read = b → u.type = "application/pdf" →
        process_uploaded_file u = ([], ["Error converting PDF to images: " ++ e])) ∧
    (b.asImage = Except.error e2 →
      ∀ u : UploadedFile, u.read = b →
        (u.type = "image/png" ∨ u.type = "image/jpeg" ∨ u.type = "image/jpg") →
        process_uploaded_file u = ([], ["Error processing file: " ++ e2])) := by
  constructor
  · intro hb
    constructor
    · simp [convert_pdf_to_images, hb]
    · intro u hr ht
      simp [process_uploaded_file, ht, hr, convert_pdf_to_images, hb]
  · intro hi u hr ht
    have hne : u.type ≠ "application/pdf" := by
      rcases ht with h | h | h <;> simp [h]
    simp [process_uploaded_file, hne, ht, hr, hi]

/-- Witness for C4: the corrupt sample buffer, declared as PDF and as PNG. -/
theorem C4_decode_failure_reported_witness :
    corruptBytes.asPdf = Except.error "Failed to open stream" ∧
    corruptBytes.asImage = Except.error "cannot identify image file" ∧
    convert_pdf_to_images corruptBytes 200 =
      ([], ["Error converting PDF to images: " ++ "Failed to open stream"]) ∧
    process_uploaded_file ⟨corruptBytes, "image/png"⟩ =
      ([], ["Error processing file: " ++ "cannot identify image file"]) :=
  ⟨rfl, rfl,
    ((C4_decode_failure_reported corruptBytes 200 "Failed to open stream"
        "cannot identify image file").1 rfl).1,
    (C4_decode_failure_reported corruptBytes 200 "Failed to open stream"
        "cannot identify image file").2 rfl ⟨corruptBytes, "image/png"⟩ rfl (Or.inl rfl)⟩

/-- C5: an upload with a supported image MIME type whose bytes decode to an
    image yields a single-element sequence whose only image is in RGB mode,
    whatever the input's original mode; an input already in RGB is returned
    unchanged. -/
theorem C5_image_rgb_single (u : UploadedFile) (img : PIL.Image)
    (ht : u.type = "image/png" ∨ u.type = "image/jpeg" ∨ u.type = "image/jpg")
    (hi : u.read.asImage = Except.ok img) :
    (process_uploaded_file u).1.length = 1 ∧
    (process_uploaded_file u).1.map PIL.Image.mode = ["RGB"] ∧
    (process_uploaded_file u).2 = [] ∧
    (img.mode = "RGB" → (process_uploaded_file u).1 = [img]) := by
  have hne : u.type ≠ "application/pdf" := by
    rcases ht with h | h | h <;> simp [h]
  by_cases hm : img.mode = "RGB" <;>
    simp [process_uploaded_file, hne, ht, hi, hm, PIL.Image.convert]

/-- Witness for C5: a grayscale PNG upload comes back as one RGB image. -/
theorem C5_image_rgb_single_witness :
    grayPngUpload.read.asImage = Except.ok ⟨"L", 4, 4⟩ ∧
    (process_uploaded_file grayPngUpload).1.map PIL.Image.mode = ["RGB"] :=
  ⟨rfl, (C5_image_rgb_single grayPngUpload ⟨"L", 4, 4⟩ (Or.inl rfl) rfl).2.1⟩

/-- C6: of the two selectable model variants, only `gemini-3-flash-preview`
    gets a thinking (reasoning-effort) configuration in the outbound request;
    for `gemini-2.5-flash` the parameter is absent from the request config
    rather than defaulted, and `main` forwards the sidebar thinking level only
    for the 3-flash variant. -/
theorem C6_thinking_config_per_variant (images : List PIL.Image) (tl mr : String) :
    (extract_questions_from_images images "gemini-2.5-flash" tl mr).config.thinking_config =
      none ∧
    (extract_questions_from_images images "gemini-3-flash-preview" tl mr).config.thinking_config =
      some (types.ThinkingConfig.mk tl) ∧
    main_thinking_level "gemini-2.5-flash" tl = "medium" ∧
    main_thinking_level "gemini-3-flash-preview" tl = tl := by
  have h25 : (pyIn "2.5" "gemini-2.5-flash" ||
      pyIn "gemini-2.5" (pyLower "gemini-2.5-flash")) = true := by decide
  have h3 : (pyIn "2.5" "gemini-3-flash-preview" ||
      pyIn "gemini-2.5" (pyLower "gemini-3-flash-preview")) = false := by decide
  have hm25 : pyIn "3-flash" "gemini-2.5-flash" = false := by decide
  have hm3 : pyIn "3-flash" "gemini-3-flash-preview" = true := by decide
  refine ⟨?_, ?_, ?_, ?_⟩
  · simp [extract_questions_from_images, h25]
  · simp [extract_questions_from_images, h3]
  · simp [main_thinking_level, hm25]
  · simp [main_thinking_level, hm3]

/-- C7: a response text that is not valid JSON makes the display step fail on
    the parse (distinct, in the source, from network failures caught around the
    extraction call) and report the raw response text equal to the input string
    exactly. -/
theorem C7_parse_error_raw_text (s : String) (h : json.loads s = none) :
    display_question_paper s = DisplayOutcome.parseError s := by
  simp [display_question_paper, h]

/-- Witness for C7: the literal response text "not json". -/
theorem C7_parse_error_raw_text_witness :
    json.loads "not json" = none ∧
    display_question_paper "not json" = DisplayOutcome.parseError "not json" :=
  ⟨rfl, C7_parse_error_raw_text "not json" rfl⟩

/-- One question detail round-trips through serialization and validation. -/
theorem validate_detail_toJson (q : QuestionDetailBase) :
    validate_question_detail (QuestionDetailBase.toJson q) = some q := by
  cases q with
  | mk qn qt qtext m icq ci dd spm =>
    cases qt <;> cases icq <;> cases ci <;> cases dd <;> cases spm <;> rfl

/-- A serialized question list revalidates to itself. -/
theorem validate_details_list (qs : List QuestionDetailBase) :
    validate_question_list (qs.map QuestionDetailBase.toJson) = some qs := by
  induction qs with
  | nil => rfl
  | cons q rest ih => simp [validate_question_list, validate_detail_toJson, ih]

/-- C8: serializing any `QuestionPaperBase` value to a JSON document and
    passing that document back through the schema validator yields the original
    value (schema round-trip law over the QuestionPaper/QuestionDetail shape). -/
theorem C8_question_paper_roundtrip (p : QuestionPaperBase) :
    validate_question_paper (QuestionPaperBase.toJson p) = some p := by
  cases p with
  | mk qs tm =>
    simp [validate_question_paper, QuestionPaperBase.toJson, lookupField,
      validate_details_list, Json.asNum]

/-- C9: one extraction invocation issues exactly one network request; that
    request's content is one user turn holding one PNG-encoded part per input
    image, in sequence order, followed by the instruction part, and its config
    carries the schema declaration and the static system-instruction text. -/
theorem C9_single_request_payload (images : List PIL.Image) (model tl mr : String)
    (hne : images ≠ []) :
    generate_content_calls images model tl mr =
      [extract_questions_from_images images model tl mr] ∧
    (generate_content_calls images model tl mr).length = 1 ∧
    (extract_questions_from_images images model tl mr).contents =
      [types.Content.mk "user"
        ((images.map fun img =>
            types.Part.from_bytes (types.ImageBytes.pngOf img) "image/png") ++
          [types.Part.from_text
            "Extract all questions from this question paper following the schema and instructions provided."])] ∧
    (extract_questions_from_images images model tl mr).config.response_schema =
      types.SchemaRef.questionPaperBase ∧
    (extract_questions_from_images images model tl mr).config.system_instruction =
      [types.Part.from_text get_system_prompt] := by
  refine ⟨rfl, rfl, rfl, ?_, ?_⟩ <;>
    by_cases h : (pyIn "2.5" model || pyIn "gemini-2.5" (pyLower model)) = true <;>
      simp [extract_questions_from_images, h]

/-- Witness for C9: a single sample image sent to the 2.5 variant. -/
theorem C9_single_request_payload_witness :
    [sampleImage] ≠ ([] : List PIL.Image) ∧
    (generate_content_calls [sampleImage] "gemini-2.5-flash" "medium" "medium").length = 1 :=
  ⟨by decide,
    (C9_single_request_payload [sampleImage] "gemini-2.5-flash" "medium" "medium"
      (by decide)).2.1⟩

/-- C10: `validate_latex` returns `true` exactly when the number of
    non-overlapping `"$$"` occurrences is even and the count of `'$'`
    characters minus twice that number is even; the result is therefore a
    function of these two counts alone, independent of delimiter positions. -/
theorem C10_validate_latex_parity (t : String) :
    validate_latex t = true ↔
      Even (countDoubleDollar t.data) ∧
      Even ((countChar '$' t.data : ℤ) - 2 * (countDoubleDollar t.data : ℤ)) := by
  have hm : ((countChar '$' t.data : ℤ) - (countDoubleDollar t.data : ℤ) * 2) =
      ((countChar '$' t.data : ℤ) - 2 * (countDoubleDollar t.data : ℤ)) := by ring
  simp only [validate_latex, hm]
  split_ifs with h1 h2
  · simp only [Bool.false_eq_true, false_iff]
    intro ⟨_, hs⟩
    exact h1 (Int.even_iff.mp hs)
  · simp only [Bool.false_eq_true, false_iff]
    intro ⟨hd, _⟩
    exact h2 (Int.even_iff.mp ((Int.even_coe_nat (countDoubleDollar t.data)).mpr hd))
  · simp only [true_iff]
    exact ⟨(Int.even_coe_nat (countDoubleDollar t.data)).mp
        (Int.even_iff.mpr (not_not.mp h2)),
      Int.even_iff.mpr (not_not.mp h1)⟩

end QPApp
